import Mathlib

/-!
Verification of the Cloud Hypervisor device-attachment orchestrator
(`runtime-rs/crates/hypervisor/src/ch/inner_device.rs`).

The Rust code is shallowly embedded: the orchestrator state
(`CloudHypervisorInner`) is a Lean structure, every operation is a pure
function from the state to a `Step` record that carries the Rust
`Result`, the state after the call (Rust methods take `&mut self`, so
mutations survive an early `?` return), and the ordered list of
configurations sent to the external VMM over the control socket.
-/

namespace ChInnerDevice

/-- Machine state of the VMM. Modelled from the spec: the enumeration
lives outside the embedded file; only the two states that matter here
(`NotReady`, `VmRunning`) are modelled, and the code only ever compares
against `VmRunning`. -/
inductive VmmState where
  | NotReady
  | VmRunning
deriving DecidableEq, Repr

/-- Debug rendering of a `VmmState`, as interpolated into the replay
precondition error message. -/
def VmmState.debugStr : VmmState → String
  | .NotReady => "NotReady"
  | .VmRunning => "VmRunning"

/-- Modelled from the spec: a shared-filesystem device request
`ShareFsDevice\x7bfs_type, mount_tag, sock_path, queue_num, queue_size\x7d`;
the struct itself is declared outside the embedded file. `queue_num` and
`queue_size` are unsigned machine integers, modelled as `Nat`. -/
structure ShareFsDeviceConfig where
  fs_type : String
  mount_tag : String
  sock_path : String
  queue_num : Nat
  queue_size : Nat
deriving DecidableEq, Repr

/-- Modelled from the spec: hybrid vsock channel settings; never
inspected by the embedded code (the handler is a stub). -/
structure HybridVsockConfig where
  uds_path : String
deriving DecidableEq, Repr

/-- Modelled from the spec: the tagged union of device requests, as a
closed sum with an `Other` case carrying the kind identifier for the
device kinds this core rejects as unhandled. -/
inductive Device where
  | ShareFsDevice (cfg : ShareFsDeviceConfig)
  | HybridVsock (cfg : HybridVsockConfig)
  | Other (kind : String)
deriving DecidableEq, Repr

/-- Kind identifier of a device, as interpolated into the
"unhandled device" error message. -/
def Device.kindStr : Device → String
  | .ShareFsDevice _ => "ShareFsDevice"
  | .HybridVsock _ => "HybridVsock"
  | .Other kind => kind

/-- The hypervisor-specific shared-filesystem configuration record.
Modelled from the spec: the struct is declared outside the embedded
file; only the four fields this core sets are modelled (the remaining
fields take defaults). `queue_size` is a `u16` in the wire format,
established by the checked narrowing in the translator. -/
structure FsConfig where
  tag : String
  socket : String
  num_queues : Nat
  queue_size : Nat
deriving DecidableEq, Repr

/-- Modelled from the spec: boot configuration record with an initrd
path and a boot image path, empty string meaning unset. -/
structure BootInfo where
  initrd : String
  image : String
deriving DecidableEq, Repr

/-- Modelled from the spec: the hypervisor configuration source,
exposing `boot_info`. -/
structure HypervisorConfig where
  boot_info : BootInfo
deriving DecidableEq, Repr

/-- Modelled from the spec: the VMM control socket handle; an opaque
cloneable resource, carried only to decide presence or absence. -/
structure ApiSocket where
  id : Nat
deriving DecidableEq, Repr

/-- The orchestrator state (`CloudHypervisorInner`): machine state, the
optional pending-device queue, the optional control socket, the
machine working directory and the optional hypervisor configuration. -/
structure CloudHypervisorInner where
  state : VmmState
  pending_devices : Option (List Device)
  api_socket : Option ApiSocket
  vm_path : String
  config : Option HypervisorConfig
deriving DecidableEq, Repr

/-- Result of one stateful operation: the returned `Result`, the state
after the call (mutations survive early error returns), and the ordered
list of filesystem configurations sent to the external VMM API. -/
structure Step (α : Type) where
  res : Except String α
  st : CloudHypervisorInner
  calls : List FsConfig
deriving Repr

def VIRTIO_FS : String := "virtio-fs"

/-- `u16::try_from` on an unsigned value: succeeds exactly when the
value fits in 16 bits. -/
def u16_try_from (n : Nat) : Except String Nat :=
  if n < 65536 then Except.ok n
  else Except.error "out of range integral type conversion attempted"

/-- Rust `str::starts_with` applied to the separator character: the
first character is a slash. -/
def hasLeadingSlash (s : String) : Bool :=
  match s.data with
  | [] => false
  | c :: _ => c == '/'

/-- The last character is a slash. -/
def hasTrailingSlash (s : String) : Bool :=
  match s.data.getLast? with
  | some c => c == '/'
  | none => false

/-- `PathBuf::join` for the relative-child case: append the child to
the base, inserting a separator unless the base is empty or already
ends in one. -/
def pathJoin (base child : String) : String :=
  if base.isEmpty || hasTrailingSlash base then base ++ child
  else base ++ "/" ++ child

/-- Modelled from the spec: `safe_path::scoped_join`, the path
confinement utility (a crate of this repository outside the embedded
file), which resolves a relative path against the base directory. -/
def scoped_join (base child : String) : Except String String :=
  Except.ok (pathJoin base child)

/-- Settings handed to the boot-time config translator: the raw request
plus the machine working directory. -/
structure ShareFsSettings where
  cfg : ShareFsDeviceConfig
  vm_path : String
deriving DecidableEq, Repr

/-- The boot-time config translator `TryFrom<ShareFsSettings> for
FsConfig`: fills queue defaults (1 queue, size 1024 when `queue_num` is
zero, otherwise a checked `u16` narrowing of `queue_size`), resolves
the socket path (verbatim when absolute, joined to the working
directory when relative) and passes the mount tag through. -/
def FsConfig.try_from (settings : ShareFsSettings) : Except String FsConfig :=
  let cfg := settings.cfg
  let vm_path := settings.vm_path
  let num_queues : Nat := if cfg.queue_num > 0 then cfg.queue_num else 1
  match (if cfg.queue_num > 0 then u16_try_from cfg.queue_size
         else Except.ok 1024) with
  | Except.error e => Except.error e
  | Except.ok queue_size =>
    let socket_path :=
      if hasLeadingSlash cfg.sock_path then cfg.sock_path
      else pathJoin vm_path cfg.sock_path
    Except.ok { tag := cfg.mount_tag, socket := socket_path,
                num_queues := num_queues, queue_size := queue_size }

/-- The immediate-apply handler `handle_share_fs_device`: rejects
non-virtio-fs requests, requires the control socket, computes the queue
defaults and the socket path exactly as the boot-time translator does,
then performs the external `vm.add-fs` API call (modelled from the
spec as a black box that always acknowledges; the sent configuration is
recorded in `calls`). -/
def handle_share_fs_device (s : CloudHypervisorInner)
    (cfg : ShareFsDeviceConfig) : Step Unit :=
  if cfg.fs_type ≠ VIRTIO_FS then
    ⟨Except.error ("cannot handle share fs type: " ++ cfg.fs_type), s, []⟩
  else
    match s.api_socket with
    | none => ⟨Except.error "missing socket", s, []⟩
    | some _ =>
      let num_queues : Nat := if cfg.queue_num > 0 then cfg.queue_num else 1
      match (if cfg.queue_num > 0 then u16_try_from cfg.queue_size
             else Except.ok 1024) with
      | Except.error e => ⟨Except.error e, s, []⟩
      | Except.ok queue_size =>
        match (if hasLeadingSlash cfg.sock_path then Except.ok cfg.sock_path
               else scoped_join s.vm_path cfg.sock_path) with
        | Except.error e => ⟨Except.error e, s, []⟩
        | Except.ok socket_path =>
          let fs_config : FsConfig :=
            { tag := cfg.mount_tag, socket := socket_path,
              num_queues := num_queues, queue_size := queue_size }
          ⟨Except.ok (), s, [fs_config]⟩

/-- The hybrid-vsock handler: an explicit stub that always succeeds. -/
def handle_hvsock_device (s : CloudHypervisorInner)
    (_cfg : HybridVsockConfig) : Step Unit :=
  ⟨Except.ok (), s, []⟩

/-- Dispatch on the device kind (`handle_add_device`): shared
filesystem and hybrid vsock are handled, every other kind fails naming
the kind. -/
def handle_add_device (s : CloudHypervisorInner) (device : Device) :
    Step Unit :=
  match device with
  | Device.ShareFsDevice cfg => handle_share_fs_device s cfg
  | Device.HybridVsock cfg => handle_hvsock_device s cfg
  | other =>
    ⟨Except.error ("unhandled device: " ++ other.kindStr), s, []⟩

/-- `add_device`: while the machine is not running, prepend the request
to the pending queue (creating the queue if absent) and succeed; once
running, dispatch immediately. -/
def add_device (s : CloudHypervisorInner) (device : Device) : Step Unit :=
  if s.state ≠ VmmState.VmRunning then
    let devices : List Device :=
      match s.pending_devices with
      | some devices => devices
      | none => []
    ⟨Except.ok (), { s with pending_devices := some (device :: devices) }, []⟩
  else
    handle_add_device s device

/-- The replay loop body: `while let Some(dev) = devices.pop()` pops
from the back of the vector, so the loop walks the reversed vector;
this helper receives the elements already in pop order. Each element
goes through `add_device`, a failure gains the `add_device` context and
aborts the rest. -/
def replayAll (s : CloudHypervisorInner) : List Device → Step Unit
  | [] => ⟨Except.ok (), s, []⟩
  | dev :: rest =>
    let step := add_device s dev
    match step.res with
    | Except.ok _ =>
      let next := replayAll step.st rest
      ⟨next.res, next.st, step.calls ++ next.calls⟩
    | Except.error e =>
      ⟨Except.error ("add_device: " ++ e), step.st, step.calls⟩

/-- `handle_pending_devices_after_boot`: fails naming the state unless
the machine is running; otherwise takes the pending queue (leaving it
absent) and replays it by popping from the back until empty. -/
def handle_pending_devices_after_boot (s : CloudHypervisorInner) :
    Step Unit :=
  if s.state ≠ VmmState.VmRunning then
    ⟨Except.error ("cannot handle pending devices with VMM state "
        ++ s.state.debugStr), s, []⟩
  else
    match s.pending_devices with
    | none => ⟨Except.ok (), s, []⟩
    | some devices =>
      replayAll { s with pending_devices := none } devices.reverse

/-- `remove_device`: the documented no-op placeholder. -/
def remove_device (s : CloudHypervisorInner) (_device : Device) :
    Step Unit :=
  ⟨Except.ok (), s, []⟩

/-- The translation loop inside `get_shared_fs_devices`: walk the
drained queue front to back, translate each shared-filesystem request
through `FsConfig.try_from` (a failure aborts with that error), and
silently skip every other kind. -/
def translate_pending (vm_path : String) :
    List Device → Except String (List FsConfig)
  | [] => Except.ok []
  | Device.ShareFsDevice dev :: rest =>
    match FsConfig.try_from (ShareFsSettings.mk dev vm_path) with
    | Except.error e => Except.error e
    | Except.ok fs_cfg =>
      match translate_pending vm_path rest with
      | Except.error e => Except.error e
      | Except.ok more => Except.ok (fs_cfg :: more)
  | _ :: rest => translate_pending vm_path rest

/-- `get_shared_fs_devices`: takes the pending queue first (so it is
absent afterwards whatever happens), then returns `none` if no queue
existed, and otherwise the translation of the queue. -/
def get_shared_fs_devices (s : CloudHypervisorInner) :
    Step (Option (List FsConfig)) :=
  let s' := { s with pending_devices := none }
  match s.pending_devices with
  | none => ⟨Except.ok none, s', []⟩
  | some devices =>
    match translate_pending s.vm_path devices with
    | Except.error e => ⟨Except.error e, s', []⟩
    | Except.ok root_devices => ⟨Except.ok (some root_devices), s', []⟩

/-- `get_boot_file`: with a configuration present, prefer a non-empty
initrd path, else a non-empty image path, else fail with the missing
boot file error; without a configuration, fail with the missing
configuration error. Reads the state only. -/
def get_boot_file (s : CloudHypervisorInner) : Except String String :=
  match s.config with
  | some config =>
    let boot_info := config.boot_info
    if ¬boot_info.initrd.isEmpty then Except.ok boot_info.initrd
    else if ¬boot_info.image.isEmpty then Except.ok boot_info.image
    else Except.error "missing boot file (no image or initrd)"
  | none => Except.error "no hypervisor config"

/-- Folding a whole sequence of `add_device` calls, aborting at the
first failure; used to state properties over call sequences. -/
def addAll (s : CloudHypervisorInner) : List Device → Step Unit
  | [] => ⟨Except.ok (), s, []⟩
  | dev :: rest =>
    let step := add_device s dev
    match step.res with
    | Except.ok _ =>
      let next := addAll step.st rest
      ⟨next.res, next.st, step.calls ++ next.calls⟩
    | Except.error e => ⟨Except.error e, step.st, step.calls⟩

end ChInnerDevice

namespace ChInnerDevice

/-- With the control socket present and a virtio-fs request, the
immediate-apply handler succeeds exactly when the boot-time translator
does, leaves the state untouched, and sends exactly the configuration
the translator produces. -/
theorem handle_share_fs_eq (s : CloudHypervisorInner)
    (cfg : ShareFsDeviceConfig) (k : ApiSocket)
    (hsock : s.api_socket = some k) (hfs : cfg.fs_type = VIRTIO_FS) :
    handle_share_fs_device s cfg =
      match FsConfig.try_from ⟨cfg, s.vm_path⟩ with
      | Except.ok fc => ⟨Except.ok (), s, [fc]⟩
      | Except.error e => ⟨Except.error e, s, []⟩ := by
  unfold handle_share_fs_device FsConfig.try_from scoped_join
  simp only [hfs, hsock, ne_eq, not_true_eq_false, if_false, ite_false]
  by_cases hq : cfg.queue_num > 0
  · simp only [hq, if_true, ite_true]
    cases h : u16_try_from cfg.queue_size with
    | error e => simp
    | ok qs =>
      by_cases hsp : hasLeadingSlash cfg.sock_path
      · simp [hsp]
      · simp [hsp]
  · simp only [hq, if_false, ite_false]
    by_cases hsp : hasLeadingSlash cfg.sock_path
    · simp [hsp]
    · simp [hsp]

/-- While the machine is not running, a single `add_device` call
succeeds, performs no external call, and pushes the request onto the
front of the pending queue (creating it if absent). -/
theorem add_device_not_running (s : CloudHypervisorInner) (d : Device)
    (hst : s.state ≠ VmmState.VmRunning) :
    add_device s d =
      ⟨Except.ok (),
       { s with
         pending_devices := some (d :: s.pending_devices.getD []) }, []⟩ := by
  unfold add_device
  simp only [hst, ne_eq, not_false_eq_true, if_true, ite_true]
  cases hp : s.pending_devices <;> simp [Option.getD]

/-- While the machine is not running, a sequence of `add_device` calls
starting from an existing queue `l` succeeds with no external calls and
leaves the queue holding the new requests reversed in front of `l`. -/
theorem addAll_not_running (devs : List Device) :
    ∀ (s : CloudHypervisorInner) (l : List Device),
      s.state ≠ VmmState.VmRunning → s.pending_devices = some l →
      addAll s devs =
        ⟨Except.ok (),
         { s with
           pending_devices := some (devs.reverse ++ l) }, []⟩ := by
  induction devs with
  | nil =>
    intro s l hst hp
    simp only [addAll, List.reverse_nil, List.nil_append, ← hp]
  | cons d rest ih =>
    intro s l hst hp
    have hstep := add_device_not_running s d hst
    simp only [addAll, hstep, hp, Option.getD_some]
    have ihs := ih { s with pending_devices := some (d :: l) }
      (d :: l) hst rfl
    simp only [ihs]
    simp [List.append_assoc]

/-- Replaying, in the running state with the socket present, a list of
virtio-fs requests that all translate successfully applies them in list
order and does not touch the state. -/
theorem replayAll_share_fs (k : ApiSocket) :
    ∀ (cfgs : List ShareFsDeviceConfig) (s : CloudHypervisorInner)
      (fcs : List FsConfig),
      s.state = VmmState.VmRunning → s.api_socket = some k →
      (∀ c ∈ cfgs, c.fs_type = VIRTIO_FS) →
      ((cfgs.map fun c => FsConfig.try_from ⟨c, s.vm_path⟩)
        = fcs.map Except.ok) →
      replayAll s (cfgs.map Device.ShareFsDevice) =
        ⟨Except.ok (), s, fcs⟩ := by
  intro cfgs
  induction cfgs with
  | nil =>
    intro s fcs hst hsock hfs htr
    cases fcs with
    | nil => simp [replayAll]
    | cons f fs => simp at htr
  | cons c rest ih =>
    intro s fcs hst hsock hfs htr
    cases fcs with
    | nil => simp at htr
    | cons f fs =>
      simp only [List.map_cons, List.cons.injEq] at htr
      obtain ⟨htrc, htrrest⟩ := htr
      have hdev : add_device s (Device.ShareFsDevice c) =
          ⟨Except.ok (), s, [f]⟩ := by
        unfold add_device handle_add_device
        simp only [hst, ne_eq, not_true_eq_false, if_false, ite_false]
        rw [handle_share_fs_eq s c k hsock (hfs c (by simp))]
        simp [htrc]
      simp only [List.map_cons, replayAll, hdev]
      rw [ih s fs hst hsock (fun x hx => hfs x (by simp [hx])) htrrest]
      simp

/-- A non-empty run of `add_device` calls while not running: succeeds,
no external calls, queue created if absent, new requests reversed in
front of whatever was queued. -/
theorem addAll_not_running_cons (s : CloudHypervisorInner) (d : Device)
    (rest : List Device) (hst : s.state ≠ VmmState.VmRunning) :
    addAll s (d :: rest) =
      ⟨Except.ok (),
       { s with
         pending_devices :=
           some ((d :: rest).reverse ++ s.pending_devices.getD []) },
       []⟩ := by
  simp only [addAll, add_device_not_running s d hst]
  have h2 := addAll_not_running rest
    { s with pending_devices := some (d :: s.pending_devices.getD []) }
    (d :: s.pending_devices.getD []) hst rfl
  simp only [h2]
  simp [List.append_assoc]

end ChInnerDevice

namespace ChInnerDevice

/-- C1 (amended): requests A, B, C enqueued via `add_device` before the
machine runs are replayed by `handle_pending_devices_after_boot` in
arrival order A, B, C — the queue stores newest first and the replay
loop pops from the back, which holds the oldest — and the pending queue
is empty afterwards. -/
theorem c1_theorem (s : CloudHypervisorInner)
    (a b c : ShareFsDeviceConfig) (k : ApiSocket) (fa fb fc : FsConfig)
    (hst : s.state ≠ VmmState.VmRunning)
    (hsock : s.api_socket = some k)
    (hpend : s.pending_devices = none)
    (hfa : a.fs_type = VIRTIO_FS) (hfb : b.fs_type = VIRTIO_FS)
    (hfc : c.fs_type = VIRTIO_FS)
    (hta : FsConfig.try_from ⟨a, s.vm_path⟩ = Except.ok fa)
    (htb : FsConfig.try_from ⟨b, s.vm_path⟩ = Except.ok fb)
    (htc : FsConfig.try_from ⟨c, s.vm_path⟩ = Except.ok fc) :
    handle_pending_devices_after_boot
      { (addAll s [Device.ShareFsDevice a, Device.ShareFsDevice b,
          Device.ShareFsDevice c]).st with state := VmmState.VmRunning }
      = ⟨Except.ok (),
         { s with state := VmmState.VmRunning, pending_devices := none },
         [fa, fb, fc]⟩ := by
  rw [addAll_not_running_cons s _ _ hst]
  simp only [hpend, Option.getD_none, List.reverse_cons, List.reverse_nil]
  unfold handle_pending_devices_after_boot
  simp only [ne_eq, not_true_eq_false, if_false, ite_false]
  have hrep := replayAll_share_fs k [a, b, c]
    { s with state := VmmState.VmRunning, pending_devices := none }
    [fa, fb, fc] rfl hsock
    (by
      intro x hx
      simp only [List.mem_cons, List.not_mem_nil, or_false] at hx
      rcases hx with rfl | rfl | rfl
      · exact hfa
      · exact hfb
      · exact hfc)
    (by simp [hta, htb, htc])
  simp only [List.map_cons, List.map_nil] at hrep
  simp only [List.nil_append, List.append_assoc, List.cons_append,
    List.reverse_cons]
  simp [hrep]

/-- C1 counterexample: enqueue A, B, C before boot, transition to
running and replay; the external attach calls go out tagged A, B, C —
arrival order — not C, B, A as the claim states. -/
theorem c1_counterexample :
    (handle_pending_devices_after_boot
      { (addAll ⟨VmmState.NotReady, none, some ⟨0⟩, "/vm/1", none⟩
          [Device.ShareFsDevice ⟨"virtio-fs", "A", "/s", 0, 0⟩,
           Device.ShareFsDevice ⟨"virtio-fs", "B", "/s", 0, 0⟩,
           Device.ShareFsDevice ⟨"virtio-fs", "C", "/s", 0, 0⟩]).st
        with state := VmmState.VmRunning }).calls.map FsConfig.tag
      = ["A", "B", "C"] ∧
    (["A", "B", "C"] : List String) ≠ ["C", "B", "A"] := by
  exact ⟨by decide, by decide⟩

/-- C1 witness instantiation. -/
theorem c1_witness :
    handle_pending_devices_after_boot
      { (addAll ⟨VmmState.NotReady, none, some ⟨1⟩, "/vm/w1", none⟩
          [Device.ShareFsDevice ⟨"virtio-fs", "wa", "/sa", 0, 0⟩,
           Device.ShareFsDevice ⟨"virtio-fs", "wb", "/sb", 0, 0⟩,
           Device.ShareFsDevice ⟨"virtio-fs", "wc", "/sc", 0, 0⟩]).st
        with state := VmmState.VmRunning }
      = ⟨Except.ok (),
         ⟨VmmState.VmRunning, none, some ⟨1⟩, "/vm/w1", none⟩,
         [⟨"wa", "/sa", 1, 1024⟩, ⟨"wb", "/sb", 1, 1024⟩,
          ⟨"wc", "/sc", 1, 1024⟩]⟩ :=
  c1_theorem ⟨VmmState.NotReady, none, some ⟨1⟩, "/vm/w1", none⟩
    ⟨"virtio-fs", "wa", "/sa", 0, 0⟩ ⟨"virtio-fs", "wb", "/sb", 0, 0⟩
    ⟨"virtio-fs", "wc", "/sc", 0, 0⟩ ⟨1⟩
    ⟨"wa", "/sa", 1, 1024⟩ ⟨"wb", "/sb", 1, 1024⟩ ⟨"wc", "/sc", 1, 1024⟩
    (by decide) (by rfl) (by rfl) (by rfl) (by rfl) (by rfl) (by rfl)
    (by rfl) (by rfl)

/-- C5: a device of an unhandled kind fails at apply time with an error
naming the kind when the machine is running, while the same request is
queued without inspection while the machine is not running. -/
theorem c5_theorem (s : CloudHypervisorInner) (kind : String) :
    (s.state = VmmState.VmRunning →
      add_device s (Device.Other kind) =
        ⟨Except.error ("unhandled device: " ++ kind), s, []⟩) ∧
    (s.state ≠ VmmState.VmRunning →
      add_device s (Device.Other kind) =
        ⟨Except.ok (),
         { s with
           pending_devices :=
             some (Device.Other kind :: s.pending_devices.getD []) },
         []⟩) := by
  constructor
  · intro hrun
    unfold add_device handle_add_device Device.kindStr
    simp [hrun]
  · intro hst
    exact add_device_not_running s (Device.Other kind) hst

/-- C5 witness instantiation (both states). -/
theorem c5_witness :
    (add_device ⟨VmmState.VmRunning, none, none, "/vm/w5", none⟩
        (Device.Other "Vfio") =
      ⟨Except.error "unhandled device: Vfio",
       ⟨VmmState.VmRunning, none, none, "/vm/w5", none⟩, []⟩) ∧
    (add_device ⟨VmmState.NotReady, none, none, "/vm/w5", none⟩
        (Device.Other "Vfio") =
      ⟨Except.ok (),
       ⟨VmmState.NotReady, some [Device.Other "Vfio"], none, "/vm/w5",
        none⟩, []⟩) :=
  ⟨(c5_theorem ⟨VmmState.VmRunning, none, none, "/vm/w5", none⟩
      "Vfio").1 rfl,
   (c5_theorem ⟨VmmState.NotReady, none, none, "/vm/w5", none⟩
      "Vfio").2 (by decide)⟩

/-- C6: while the machine is not running, any non-empty sequence of
`add_device` calls all succeed with no external VMM call, and the queue
afterwards holds the requests in reverse order of arrival (last call
frontmost), prepended to any previously queued requests; the queue is
created by the first call when absent. -/
theorem c6_theorem (s : CloudHypervisorInner) (d : Device)
    (rest : List Device) (hst : s.state ≠ VmmState.VmRunning) :
    addAll s (d :: rest) =
      ⟨Except.ok (),
       { s with
         pending_devices :=
           some ((d :: rest).reverse ++ s.pending_devices.getD []) },
       []⟩ :=
  addAll_not_running_cons s d rest hst

/-- C6 witness instantiation. -/
theorem c6_witness :
    addAll ⟨VmmState.NotReady, none, none, "/vm/w6", none⟩
      [Device.Other "w6a", Device.HybridVsock ⟨"/uds"⟩,
       Device.Other "w6c"] =
      ⟨Except.ok (),
       ⟨VmmState.NotReady,
        some [Device.Other "w6c", Device.HybridVsock ⟨"/uds"⟩,
          Device.Other "w6a"],
        none, "/vm/w6", none⟩, []⟩ :=
  c6_theorem ⟨VmmState.NotReady, none, none, "/vm/w6", none⟩
    (Device.Other "w6a")
    [Device.HybridVsock ⟨"/uds"⟩, Device.Other "w6c"] (by decide)

/-- C7: replay called while the machine is not running fails naming the
state, with the whole orchestrator state — the pending queue included —
unchanged, and no external call. -/
theorem c7_theorem (s : CloudHypervisorInner)
    (hst : s.state ≠ VmmState.VmRunning) :
    handle_pending_devices_after_boot s =
      ⟨Except.error ("cannot handle pending devices with VMM state "
          ++ s.state.debugStr), s, []⟩ := by
  unfold handle_pending_devices_after_boot
  simp [hst]

/-- C7 witness instantiation. -/
theorem c7_witness :
    handle_pending_devices_after_boot
      ⟨VmmState.NotReady, some [Device.Other "w7"], none, "/vm/w7", none⟩
      = ⟨Except.error
           "cannot handle pending devices with VMM state NotReady",
         ⟨VmmState.NotReady, some [Device.Other "w7"], none, "/vm/w7",
          none⟩, []⟩ :=
  c7_theorem
    ⟨VmmState.NotReady, some [Device.Other "w7"], none, "/vm/w7", none⟩
    (by decide)

end ChInnerDevice

namespace ChInnerDevice

/-- C2 counterexample: a request with `queue_num = 1, queue_size = 0`
is accepted by the translator, and the produced config carries
`queue_size = 0`, refuting `queue_size > 0`. -/
theorem c2_counterexample :
    FsConfig.try_from ⟨⟨"virtio-fs", "t2", "/s2", 1, 0⟩, "/vm/2"⟩
      = Except.ok ⟨"t2", "/s2", 1, 0⟩ ∧
    ¬ 0 < (⟨"t2", "/s2", 1, 0⟩ : FsConfig).queue_size := by
  exact ⟨by rfl, by decide⟩

/-- Queue-field facts about every accepted translation, shared by the
default-filling claims. -/
theorem try_from_queue_fields (settings : ShareFsSettings) (fc : FsConfig)
    (h : FsConfig.try_from settings = Except.ok fc) :
    0 < fc.num_queues ∧
    (settings.cfg.queue_num = 0 →
      fc.num_queues = 1 ∧ fc.queue_size = 1024) ∧
    (0 < settings.cfg.queue_num →
      fc.num_queues = settings.cfg.queue_num ∧
      fc.queue_size = settings.cfg.queue_size ∧ fc.queue_size ≤ 65535) ∧
    ((settings.cfg.queue_num = 0 ∨ 0 < settings.cfg.queue_size) →
      0 < fc.queue_size) := by
  unfold FsConfig.try_from u16_try_from at h
  by_cases hq : 0 < settings.cfg.queue_num
  · simp only [hq, gt_iff_lt, if_true, ite_true] at h
    by_cases hlt : settings.cfg.queue_size < 65536
    · simp only [hlt, if_true, ite_true, Except.ok.injEq] at h
      subst h
      refine ⟨hq, ?_, fun _ => ⟨rfl, rfl, by dsimp only; omega⟩, ?_⟩
      · intro h0
        omega
      · rintro (h0 | hpos)
        · omega
        · exact hpos
    · simp [hlt] at h
  · simp only [hq, if_false, ite_false, Except.ok.injEq] at h
    subst h
    refine ⟨Nat.one_pos, fun _ => ⟨rfl, rfl⟩, fun hp => absurd hp hq,
      fun _ => by norm_num⟩

/-- C2 (amended): every accepted translation has `queue_count > 0`; the
defaults 1 queue / 1024 queue size are applied exactly when the input
`queue_num` is zero, and with positive `queue_num` the inputs pass
through (bounded by 65535); `queue_size > 0` holds in the output
whenever `queue_num` is zero or the input `queue_size` is positive, but
an input with positive `queue_num` and zero `queue_size` is accepted
and yields a zero output `queue_size`. -/
theorem c2_theorem (settings : ShareFsSettings) (fc : FsConfig)
    (h : FsConfig.try_from settings = Except.ok fc) :
    0 < fc.num_queues ∧
    (settings.cfg.queue_num = 0 →
      fc.num_queues = 1 ∧ fc.queue_size = 1024) ∧
    (0 < settings.cfg.queue_num →
      fc.num_queues = settings.cfg.queue_num ∧
      fc.queue_size = settings.cfg.queue_size ∧ fc.queue_size ≤ 65535) ∧
    ((settings.cfg.queue_num = 0 ∨ 0 < settings.cfg.queue_size) →
      0 < fc.queue_size) :=
  try_from_queue_fields settings fc h

/-- C2 witness instantiation. -/
theorem c2_witness :
    0 < (⟨"t2w", "/sw", 1, 1024⟩ : FsConfig).num_queues ∧
    ((⟨⟨"virtio-fs", "t2w", "/sw", 0, 5⟩, "/vm/w2"⟩ :
        ShareFsSettings).cfg.queue_num = 0 →
      (⟨"t2w", "/sw", 1, 1024⟩ : FsConfig).num_queues = 1 ∧
      (⟨"t2w", "/sw", 1, 1024⟩ : FsConfig).queue_size = 1024) ∧
    (0 < (⟨⟨"virtio-fs", "t2w", "/sw", 0, 5⟩, "/vm/w2"⟩ :
        ShareFsSettings).cfg.queue_num →
      (⟨"t2w", "/sw", 1, 1024⟩ : FsConfig).num_queues =
        (⟨⟨"virtio-fs", "t2w", "/sw", 0, 5⟩, "/vm/w2"⟩ :
          ShareFsSettings).cfg.queue_num ∧
      (⟨"t2w", "/sw", 1, 1024⟩ : FsConfig).queue_size =
        (⟨⟨"virtio-fs", "t2w", "/sw", 0, 5⟩, "/vm/w2"⟩ :
          ShareFsSettings).cfg.queue_size ∧
      (⟨"t2w", "/sw", 1, 1024⟩ : FsConfig).queue_size ≤ 65535) ∧
    (((⟨⟨"virtio-fs", "t2w", "/sw", 0, 5⟩, "/vm/w2"⟩ :
        ShareFsSettings).cfg.queue_num = 0 ∨
      0 < (⟨⟨"virtio-fs", "t2w", "/sw", 0, 5⟩, "/vm/w2"⟩ :
        ShareFsSettings).cfg.queue_size) →
      0 < (⟨"t2w", "/sw", 1, 1024⟩ : FsConfig).queue_size) :=
  c2_theorem ⟨⟨"virtio-fs", "t2w", "/sw", 0, 5⟩, "/vm/w2"⟩
    ⟨"t2w", "/sw", 1, 1024⟩ (by rfl)

end ChInnerDevice

namespace ChInnerDevice

/-- C3: with the control socket present and a virtio-fs request that
the boot-time translator accepts, the immediate-apply path sends a
configuration whose socket path equals the translator's; that common
path is the request's socket path verbatim when it has a leading
separator, and the working directory joined with the request's socket
path otherwise. -/
theorem c3_theorem (s : CloudHypervisorInner) (cfg : ShareFsDeviceConfig)
    (k : ApiSocket) (fc : FsConfig)
    (hsock : s.api_socket = some k) (hfs : cfg.fs_type = VIRTIO_FS)
    (htr : FsConfig.try_from ⟨cfg, s.vm_path⟩ = Except.ok fc) :
    (handle_share_fs_device s cfg).calls.map FsConfig.socket
      = [fc.socket] ∧
    (hasLeadingSlash cfg.sock_path = true → fc.socket = cfg.sock_path) ∧
    (hasLeadingSlash cfg.sock_path = false →
      fc.socket = pathJoin s.vm_path cfg.sock_path) := by
  refine ⟨?_, ?_, ?_⟩
  · rw [handle_share_fs_eq s cfg k hsock hfs, htr]
    simp
  · intro hsp
    unfold FsConfig.try_from at htr
    rcases hu : (if cfg.queue_num > 0 then u16_try_from cfg.queue_size
        else Except.ok 1024) with e | qs
    · simp [hu] at htr
    · simp only [hu, hsp, if_true, ite_true, Except.ok.injEq] at htr
      subst htr
      rfl
  · intro hsp
    unfold FsConfig.try_from at htr
    rcases hu : (if cfg.queue_num > 0 then u16_try_from cfg.queue_size
        else Except.ok 1024) with e | qs
    · simp [hu] at htr
    · simp only [hu, hsp, Bool.false_eq_true, if_false, ite_false,
        Except.ok.injEq] at htr
      subst htr
      rfl

/-- C3 witness instantiation (relative and absolute socket paths). -/
theorem c3_witness :
    ((handle_share_fs_device
        ⟨VmmState.VmRunning, none, some ⟨3⟩, "/vm/1", none⟩
        ⟨"virtio-fs", "t3", "rel/sock", 0, 0⟩).calls.map FsConfig.socket
      = ["/vm/1/rel/sock"] ∧
     (hasLeadingSlash "rel/sock" = true →
       "/vm/1/rel/sock" = "rel/sock") ∧
     (hasLeadingSlash "rel/sock" = false →
       "/vm/1/rel/sock" = pathJoin "/vm/1" "rel/sock")) ∧
    ((handle_share_fs_device
        ⟨VmmState.VmRunning, none, some ⟨3⟩, "/vm/1", none⟩
        ⟨"virtio-fs", "t3", "/abs/sock", 0, 0⟩).calls.map FsConfig.socket
      = ["/abs/sock"] ∧
     (hasLeadingSlash "/abs/sock" = true →
       "/abs/sock" = "/abs/sock") ∧
     (hasLeadingSlash "/abs/sock" = false →
       "/abs/sock" = pathJoin "/vm/1" "/abs/sock")) :=
  ⟨c3_theorem ⟨VmmState.VmRunning, none, some ⟨3⟩, "/vm/1", none⟩
     ⟨"virtio-fs", "t3", "rel/sock", 0, 0⟩ ⟨3⟩
     ⟨"t3", "/vm/1/rel/sock", 1, 1024⟩ (by rfl) (by rfl) (by rfl),
   c3_theorem ⟨VmmState.VmRunning, none, some ⟨3⟩, "/vm/1", none⟩
     ⟨"virtio-fs", "t3", "/abs/sock", 0, 0⟩ ⟨3⟩
     ⟨"t3", "/abs/sock", 1, 1024⟩ (by rfl) (by rfl) (by rfl)⟩

/-- C4: with the control socket present and a virtio-fs request that
the boot-time translator accepts, the immediate-apply path sends a
configuration whose queue count and queue size equal the translator's;
in particular both produce 1 queue of size 1024 for `queue_num = 0`,
and 4 queues of size 256 for `queue_num = 4, queue_size = 256`. -/
theorem c4_theorem (s : CloudHypervisorInner) (cfg : ShareFsDeviceConfig)
    (k : ApiSocket) (fc : FsConfig)
    (hsock : s.api_socket = some k) (hfs : cfg.fs_type = VIRTIO_FS)
    (htr : FsConfig.try_from ⟨cfg, s.vm_path⟩ = Except.ok fc) :
    (handle_share_fs_device s cfg).calls.map
        (fun c => (c.num_queues, c.queue_size))
      = [(fc.num_queues, fc.queue_size)] ∧
    (cfg.queue_num = 0 → fc.num_queues = 1 ∧ fc.queue_size = 1024) ∧
    (cfg.queue_num = 4 → cfg.queue_size = 256 →
      fc.num_queues = 4 ∧ fc.queue_size = 256) := by
  refine ⟨?_, ?_, ?_⟩
  · rw [handle_share_fs_eq s cfg k hsock hfs, htr]
    simp
  · intro h0
    rcases try_from_queue_fields ⟨cfg, s.vm_path⟩ fc htr with ⟨-, hdef, -, -⟩
    dsimp only at hdef
    exact hdef h0
  · intro h4 h256
    rcases try_from_queue_fields ⟨cfg, s.vm_path⟩ fc htr with ⟨-, -, hpos, -⟩
    dsimp only at hpos
    have hh := hpos (by omega)
    exact ⟨by omega, by omega⟩

end ChInnerDevice

namespace ChInnerDevice

/-- C4 witness instantiation (`queue_num = 4, queue_size = 256`). -/
theorem c4_witness :
    ((handle_share_fs_device
        ⟨VmmState.VmRunning, none, some ⟨4⟩, "/vm/4", none⟩
        ⟨"virtio-fs", "t4", "/s4", 4, 256⟩).calls.map
          (fun c => (c.num_queues, c.queue_size))
      = [((⟨"t4", "/s4", 4, 256⟩ : FsConfig).num_queues,
          (⟨"t4", "/s4", 4, 256⟩ : FsConfig).queue_size)]) ∧
    ((⟨"virtio-fs", "t4", "/s4", 4, 256⟩ :
        ShareFsDeviceConfig).queue_num = 0 →
      (⟨"t4", "/s4", 4, 256⟩ : FsConfig).num_queues = 1 ∧
      (⟨"t4", "/s4", 4, 256⟩ : FsConfig).queue_size = 1024) ∧
    ((⟨"virtio-fs", "t4", "/s4", 4, 256⟩ :
        ShareFsDeviceConfig).queue_num = 4 →
      (⟨"virtio-fs", "t4", "/s4", 4, 256⟩ :
        ShareFsDeviceConfig).queue_size = 256 →
      (⟨"t4", "/s4", 4, 256⟩ : FsConfig).num_queues = 4 ∧
      (⟨"t4", "/s4", 4, 256⟩ : FsConfig).queue_size = 256) :=
  c4_theorem ⟨VmmState.VmRunning, none, some ⟨4⟩, "/vm/4", none⟩
    ⟨"virtio-fs", "t4", "/s4", 4, 256⟩ ⟨4⟩ ⟨"t4", "/s4", 4, 256⟩
    (by rfl) (by rfl) (by rfl)

/-- C8: boot-file resolution prefers a non-empty initrd, then a
non-empty image; it fails with the missing-boot-file error exactly when
both are empty, and with the missing-configuration error exactly when
no configuration was supplied. -/
theorem c8_theorem (s : CloudHypervisorInner) :
    (∀ c, s.config = some c →
      (c.boot_info.initrd.isEmpty = false →
        get_boot_file s = Except.ok c.boot_info.initrd) ∧
      (c.boot_info.initrd.isEmpty = true →
        c.boot_info.image.isEmpty = false →
        get_boot_file s = Except.ok c.boot_info.image) ∧
      (c.boot_info.initrd.isEmpty = true →
        c.boot_info.image.isEmpty = true →
        get_boot_file s =
          Except.error "missing boot file (no image or initrd)")) ∧
    (s.config = none →
      get_boot_file s = Except.error "no hypervisor config") := by
  constructor
  · intro c hc
    refine ⟨?_, ?_, ?_⟩
    · intro h1
      unfold get_boot_file
      simp [hc, h1]
    · intro h1 h2
      unfold get_boot_file
      simp [hc, h1, h2]
    · intro h1 h2
      unfold get_boot_file
      simp [hc, h1, h2]
  · intro hc
    unfold get_boot_file
    simp [hc]

/-- C8 witness instantiation (`initrd` unset, image `/boot/vmlinuz`). -/
theorem c8_witness :
    get_boot_file
      ⟨VmmState.NotReady, none, none, "/vm/8",
       some ⟨⟨"", "/boot/vmlinuz"⟩⟩⟩
      = Except.ok "/boot/vmlinuz" :=
  ((c8_theorem
      ⟨VmmState.NotReady, none, none, "/vm/8",
       some ⟨⟨"", "/boot/vmlinuz"⟩⟩⟩).1
    ⟨⟨"", "/boot/vmlinuz"⟩⟩ rfl).2.1 (by rfl) (by rfl)

end ChInnerDevice

namespace ChInnerDevice

/-- C9 counterexample: a state whose pending queue exists but holds a
share-fs request with `queue_num = 1, queue_size = 70000`; the call
returns the narrowing error, not a `some` sequence. -/
theorem c9_counterexample :
    (⟨VmmState.NotReady,
      some [Device.ShareFsDevice ⟨"virtio-fs", "t9", "/s9", 1, 70000⟩],
      some ⟨9⟩, "/vm/9", none⟩ :
        CloudHypervisorInner).pending_devices.isSome = true ∧
    (get_shared_fs_devices
      ⟨VmmState.NotReady,
       some [Device.ShareFsDevice ⟨"virtio-fs", "t9", "/s9", 1, 70000⟩],
       some ⟨9⟩, "/vm/9", none⟩).res
      = Except.error "out of range integral type conversion attempted" := by
  exact ⟨by rfl, by rfl⟩

/-- C9 (amended): when a pending queue exists and every share-fs
request in it translates successfully, `get_shared_fs_devices` returns
`some` of the translated configs (non-share-fs requests silently
discarded) and consumes the queue, so an immediately following call
returns `none`; `some` of a sequence is distinct from `none` (the
no-queue answer); when translation fails the call returns that error
instead, still consuming the queue. -/
theorem c9_theorem (s : CloudHypervisorInner) (devs : List Device)
    (cfgs : List FsConfig)
    (hpend : s.pending_devices = some devs)
    (htr : translate_pending s.vm_path devs = Except.ok cfgs) :
    get_shared_fs_devices s =
      ⟨Except.ok (some cfgs), { s with pending_devices := none }, []⟩ ∧
    get_shared_fs_devices { s with pending_devices := none } =
      ⟨Except.ok none, { s with pending_devices := none }, []⟩ ∧
    (Except.ok (some cfgs) : Except String (Option (List FsConfig))) ≠
      Except.ok none := by
  refine ⟨?_, ?_, by simp⟩
  · unfold get_shared_fs_devices
    simp [hpend, htr]
  · unfold get_shared_fs_devices
    simp

/-- C9 witness instantiation: a queue with one translatable share-fs
request and one non-share-fs request. -/
theorem c9_witness :
    get_shared_fs_devices
      ⟨VmmState.NotReady,
       some [Device.ShareFsDevice ⟨"virtio-fs", "t9w", "/s9w", 0, 0⟩,
         Device.HybridVsock ⟨"/uds9"⟩],
       none, "/vm/9w", none⟩ =
      ⟨Except.ok (some [⟨"t9w", "/s9w", 1, 1024⟩]),
       ⟨VmmState.NotReady, none, none, "/vm/9w", none⟩, []⟩ ∧
    get_shared_fs_devices
      ⟨VmmState.NotReady, none, none, "/vm/9w", none⟩ =
      ⟨Except.ok none,
       ⟨VmmState.NotReady, none, none, "/vm/9w", none⟩, []⟩ ∧
    (Except.ok (some [(⟨"t9w", "/s9w", 1, 1024⟩ : FsConfig)]) :
        Except String (Option (List FsConfig))) ≠
      Except.ok none :=
  c9_theorem
    ⟨VmmState.NotReady,
     some [Device.ShareFsDevice ⟨"virtio-fs", "t9w", "/s9w", 0, 0⟩,
       Device.HybridVsock ⟨"/uds9"⟩],
     none, "/vm/9w", none⟩
    [Device.ShareFsDevice ⟨"virtio-fs", "t9w", "/s9w", 0, 0⟩,
     Device.HybridVsock ⟨"/uds9"⟩]
    [⟨"t9w", "/s9w", 1, 1024⟩] (by rfl) (by rfl)

/-- A failing share-fs request anywhere in the queue makes the whole
translation fail. -/
theorem translate_pending_error_of_bad (vm_path : String) :
    ∀ (devs : List Device) (cfg : ShareFsDeviceConfig),
      Device.ShareFsDevice cfg ∈ devs → 0 < cfg.queue_num →
      65535 < cfg.queue_size →
      ∃ e, translate_pending vm_path devs = Except.error e := by
  intro devs
  induction devs with
  | nil =>
    intro cfg h
    simp at h
  | cons d rest ih =>
    intro cfg hmem hq hsz
    rcases List.mem_cons.mp hmem with heq | hmem2
    · subst heq
      refine ⟨"out of range integral type conversion attempted", ?_⟩
      unfold translate_pending FsConfig.try_from u16_try_from
      have hn : ¬ cfg.queue_size < 65536 := by omega
      simp [hq, hn]
    · cases d with
      | ShareFsDevice dev =>
        obtain ⟨e, he⟩ := ih cfg hmem2 hq hsz
        cases htr : FsConfig.try_from ⟨dev, vm_path⟩ with
        | error e2 => exact ⟨e2, by simp [translate_pending, htr]⟩
        | ok fc => exact ⟨e, by simp [translate_pending, htr, he]⟩
      | HybridVsock v =>
        obtain ⟨e, he⟩ := ih cfg hmem2 hq hsz
        exact ⟨e, by simp [translate_pending, he]⟩
      | Other kk =>
        obtain ⟨e, he⟩ := ih cfg hmem2 hq hsz
        exact ⟨e, by simp [translate_pending, he]⟩

/-- C10: a pending queue holding a share-fs request with positive
`queue_num` and `queue_size > 65535` makes `get_shared_fs_devices`
fail with the narrowing error, while the queue — taken before
translation starts — is already consumed and left absent: the drain is
not rolled back on error. -/
theorem c10_theorem (s : CloudHypervisorInner) (devs : List Device)
    (cfg : ShareFsDeviceConfig)
    (hpend : s.pending_devices = some devs)
    (hmem : Device.ShareFsDevice cfg ∈ devs)
    (hq : 0 < cfg.queue_num) (hsz : 65535 < cfg.queue_size) :
    (∃ e, (get_shared_fs_devices s).res = Except.error e) ∧
    (get_shared_fs_devices s).st.pending_devices = none := by
  obtain ⟨e, he⟩ :=
    translate_pending_error_of_bad s.vm_path devs cfg hmem hq hsz
  constructor
  · refine ⟨e, ?_⟩
    unfold get_shared_fs_devices
    simp [hpend, he]
  · unfold get_shared_fs_devices
    simp [hpend, he]

/-- C10 witness instantiation. -/
theorem c10_witness :
    (∃ e, (get_shared_fs_devices
      ⟨VmmState.VmRunning,
       some [Device.ShareFsDevice ⟨"virtio-fs", "tx", "/sx", 1, 70000⟩],
       some ⟨10⟩, "/vm/x", none⟩).res = Except.error e) ∧
    (get_shared_fs_devices
      ⟨VmmState.VmRunning,
       some [Device.ShareFsDevice ⟨"virtio-fs", "tx", "/sx", 1, 70000⟩],
       some ⟨10⟩, "/vm/x", none⟩).st.pending_devices = none :=
  c10_theorem
    ⟨VmmState.VmRunning,
     some [Device.ShareFsDevice ⟨"virtio-fs", "tx", "/sx", 1, 70000⟩],
     some ⟨10⟩, "/vm/x", none⟩
    [Device.ShareFsDevice ⟨"virtio-fs", "tx", "/sx", 1, 70000⟩]
    ⟨"virtio-fs", "tx", "/sx", 1, 70000⟩
    rfl (by simp) (by decide) (by decide)

end ChInnerDevice
